import Mathlib

/-!
Verification development for the serverless data-processing pipeline
(`src/functions/data_processor/data_processor.py`).

The Python source is shallowly embedded: records are association lists of
string fields (CSV rows parsed by `csv.DictReader` carry string values),
Python `float` is idealised as exact rational arithmetic extended with the
special values `inf`, `-inf` and `nan` (binary floating point rounding and
underscore digit separators are not modelled), fallible parsing is
`Option`-valued, and the remote object store is an explicit association
list of keys to object metadata. Remote-call outcomes (download, upload,
event publishing) are passed in as explicit parameters so that the control
flow of the handler is a pure function of them.
-/

namespace DataProcessor

/-! ## Python value parsing helpers -/

/-- Models Python `str.strip()`: remove leading and trailing whitespace.
(Implemented on the character list so that it evaluates by kernel
reduction.) -/
def pyStrip (s : String) : String :=
  ⟨((s.toList.dropWhile Char.isWhitespace).reverse.dropWhile
      Char.isWhitespace).reverse⟩

/-- Models Python `str.lower()` for the ASCII range. -/
def strToLower (s : String) : String :=
  ⟨s.toList.map Char.toLower⟩

/-- Models Python `str.startswith(pre)` (and S3 key-prefix matching). -/
def strStartsWith (s pre : String) : Bool :=
  pre.toList.isPrefixOf s.toList

/-- Numeric value of a list of decimal digit characters (most significant
first), as accumulated by positional base-10 reading. -/
def digitsVal (cs : List Char) : Nat :=
  cs.foldl (fun a c => a * 10 + (c.toNat - 48)) 0

/-- A nonempty, all-decimal-digit character list. -/
def isDigits (cs : List Char) : Bool :=
  !cs.isEmpty && cs.all Char.isDigit

/-- Result of Python `float(...)` on a string: a finite value (idealised as
an exact rational), one of the signed infinities, or `nan`. -/
inductive PyFloat where
  | finite (q : ℚ)
  | inf
  | negInf
  | nan
deriving DecidableEq

/-- Models the Python comparison `x <= 0` on a float value
(`nan` compares false, `inf` is positive, `-inf` negative). -/
def PyFloat.leZero : PyFloat → Bool
  | .finite q => decide (q ≤ 0)
  | .inf => false
  | .negInf => true
  | .nan => false

/-- Models the Python comparison `x > 10000` on a float value. -/
def PyFloat.gtTenThousand : PyFloat → Bool
  | .finite q => decide (10000 < q)
  | .inf => true
  | .negInf => false
  | .nan => false

/-- Mantissa of a decimal literal: `digits`, `digits.digits`, `.digits` or
`digits.` with at least one digit overall. -/
def parseMantissa (cs : List Char) : Option ℚ :=
  match cs.splitOn '.' with
  | [ip] => if isDigits ip then some (digitsVal ip) else none
  | [ip, fp] =>
      if (ip.all Char.isDigit && fp.all Char.isDigit) && (!ip.isEmpty || !fp.isEmpty) then
        some ((digitsVal ip : ℚ) + (digitsVal fp : ℚ) / 10 ^ fp.length)
      else none
  | _ => none

/-- Exponent part of a decimal literal: optional sign then digits. -/
def parseExponent (cs : List Char) : Option ℤ :=
  match cs with
  | '+' :: rest => if isDigits rest then some (digitsVal rest : ℤ) else none
  | '-' :: rest => if isDigits rest then some (-(digitsVal rest : ℤ)) else none
  | rest => if isDigits rest then some (digitsVal rest : ℤ) else none

/-- Finite decimal literal, with optional `e`-exponent (input already
lower-cased). -/
def parseDecimal (cs : List Char) : Option ℚ :=
  match cs.splitOn 'e' with
  | [m] => parseMantissa m
  | [m, ex] =>
      match parseMantissa m, parseExponent ex with
      | some mv, some e =>
          some (if 0 ≤ e then mv * 10 ^ e.toNat else mv / 10 ^ (-e).toNat)
      | _, _ => none
  | _ => none

/-- Body of a Python float literal after the optional sign has been
removed: the special spellings `inf`, `infinity`, `nan`, or a finite
decimal. -/
def pyFloatBody (neg : Bool) (cs : List Char) : Option PyFloat :=
  if cs = "inf".toList ∨ cs = "infinity".toList then
    some (if neg then .negInf else .inf)
  else if cs = "nan".toList then some .nan
  else (parseDecimal cs).map (fun q => .finite (if neg then -q else q))

/-- Models Python `float(s)` for a string argument: strip surrounding
whitespace, lower-case, optional sign, then a float body. `none` means
`float` raises `ValueError`. (Idealisation: exact rationals, and the
underscore digit separators Python accepts are not modelled.) -/
def pyFloat (s : String) : Option PyFloat :=
  match (strToLower (pyStrip s)).toList with
  | '+' :: rest => pyFloatBody false rest
  | '-' :: rest => pyFloatBody true rest
  | rest => pyFloatBody false rest

/-- Models Python `int(s)` for a string argument: strip surrounding
whitespace, optional sign, decimal digits. `none` means `int` raises
`ValueError`. -/
def pyInt (s : String) : Option ℤ :=
  match (pyStrip s).toList with
  | '+' :: rest => if isDigits rest then some (digitsVal rest : ℤ) else none
  | '-' :: rest => if isDigits rest then some (-(digitsVal rest : ℤ)) else none
  | rest => if isDigits rest then some (digitsVal rest : ℤ) else none

/-- Day count of a month in the proleptic Gregorian calendar, as used by
Python `datetime`. -/
def daysInMonth (y m : Nat) : Nat :=
  if m = 2 then
    if (y % 4 = 0 && y % 100 ≠ 0) || y % 400 = 0 then 29 else 28
  else if m = 4 ∨ m = 6 ∨ m = 9 ∨ m = 11 then 30 else 31

/-- Models `datetime.strptime(s, "%Y-%m-%d")` succeeding: exactly three
dash-separated digit groups, a 4-digit year, 1-2 digit month and day, and
the values must form a real calendar date (year at least 1). -/
def isValidDateYMD (s : String) : Bool :=
  match s.toList.splitOn '-' with
  | [ys, ms, ds] =>
      ys.length == 4 && isDigits ys &&
      isDigits ms && ms.length ≤ 2 &&
      isDigits ds && ds.length ≤ 2 &&
      (let y := digitsVal ys
       let m := digitsVal ms
       let d := digitsVal ds
       1 ≤ y && 1 ≤ m && m ≤ 12 && 1 ≤ d && d ≤ daysInMonth y m)
  | _ => false

/-! ## Records -/

/-- A CSV record as produced by `csv.DictReader`: a mapping of field names
to string values, embedded as an association list. -/
abbrev Record : Type := List (String × String)

/-- Models `record.get(field)` (`none` = key absent, i.e. Python `None`
default). -/
def Record.get (r : Record) (f : String) : Option String :=
  (List.find? (fun p => p.1 == f) r).map (fun p => p.2)

/-- Models Python dict assignment `record[k] = v`: any previous binding of
`k` is replaced. -/
def Record.set (r : Record) (k v : String) : Record :=
  (List.filter (fun p => !(p.1 == k)) r) ++ [(k, v)]

/-! ## The record validator (`validate_smartphone_record`) -/

/-- The required-field list of the validator (source line 380); note that
it contains `date`. -/
def required_fields : List String :=
  ["order_id", "date", "brand", "price", "region"]

/-- Models `not record.get(field) or str(record[field]).strip() == ''`:
the field is absent, or its value is empty or whitespace-only. -/
def fieldMissing (r : Record) (f : String) : Bool :=
  match r.get f with
  | none => true
  | some s => s == "" || pyStrip s == ""

/-- Rule 1: one `Missing required field` reason per missing required
field, in list order. -/
def requiredErrors (r : Record) : List String :=
  (required_fields.filter (fieldMissing r)).map
    (fun f => "Missing required field: " ++ f)

/-- The two bound checks run on a successfully parsed price
(`price <= 0`, then `price > 10000`). -/
def priceBoundErrors (p : PyFloat) : List String :=
  (if p.leZero then ["Price must be greater than 0"] else []) ++
  (if p.gtTenThousand then ["Price exceeds maximum limit (10000)"] else [])

/-- Rule 2: `float(record.get('price', 0))` — an absent price defaults to
the number `0`; a parse failure yields the format reason and skips both
bound checks. -/
def priceErrors (r : Record) : List String :=
  match r.get "price" with
  | none => priceBoundErrors (.finite 0)
  | some s =>
      match pyFloat s with
      | some p => priceBoundErrors p
      | none => ["Invalid price format - must be a number"]

/-- Rule 3: optional RAM; sentinel spellings `""` and `N/A` are skipped,
otherwise `int(ram)` with positivity and a 32 upper bound. -/
def ramErrors (r : Record) : List String :=
  let ram := pyStrip ((r.get "ram").getD "")
  if ram ≠ "" ∧ ram ≠ "N/A" then
    match pyInt ram with
    | some v =>
        (if v ≤ 0 then ["RAM must be greater than 0"] else []) ++
        (if v > 32 then ["RAM exceeds maximum limit (32GB)"] else [])
    | none => ["Invalid RAM format - must be a number"]
  else []

/-- Rule 4: optional storage; same shape as RAM but with only the
positivity check. -/
def storageErrors (r : Record) : List String :=
  let storage := pyStrip ((r.get "storage").getD "")
  if storage ≠ "" ∧ storage ≠ "N/A" then
    match pyInt storage with
    | some v => if v ≤ 0 then ["Storage must be greater than 0"] else []
    | none => ["Invalid storage format - must be a number"]
  else []

/-- Rule 5: the date-format check, run only when the trimmed date is
nonempty. -/
def dateErrors (r : Record) : List String :=
  let dateStr := pyStrip ((r.get "date").getD "")
  if dateStr ≠ "" ∧ ¬ isValidDateYMD dateStr then
    ["Invalid date format - must be YYYY-MM-DD"]
  else []

/-- The fixed region enumeration (source line 428). -/
def valid_regions : List String :=
  ["North America", "South America", "Europe", "Asia", "Africa", "Oceania"]

/-- Rule 6: a nonempty region must belong to `valid_regions`. -/
def regionErrors (r : Record) : List String :=
  let region := pyStrip ((r.get "region").getD "")
  if region ≠ "" ∧ ¬ valid_regions.contains region then
    ["Invalid region - must be one of: " ++ String.intercalate ", " valid_regions]
  else []

/-- Rule 7: model is required when brand is provided. -/
def modelErrors (r : Record) : List String :=
  let model := pyStrip ((r.get "model").getD "")
  let brand := pyStrip ((r.get "brand").getD "")
  if brand ≠ "" ∧ model = "" then
    ["Model is required when brand is provided"]
  else []

/-- A validation verdict: the flag plus the collected reasons. -/
structure Verdict where
  is_valid : Bool
  errors : List String
deriving DecidableEq

/-- The validator: all seven rule blocks append to one reasons list, in
source order; `is_valid` is `len(errors) == 0`. The `rowNum` parameter is
accepted (as in the source signature) and never read. -/
def validate_smartphone_record (record : Record) (rowNum : Nat) : Verdict :=
  let _ := rowNum
  let errors :=
    requiredErrors record ++ priceErrors record ++ ramErrors record ++
    storageErrors record ++ dateErrors record ++ regionErrors record ++
    modelErrors record
  ⟨errors.length == 0, errors⟩

/-! ## The CSV partition loop (`process_csv_file`, lines 334-365)

The S3 download is modelled by passing the parsed data rows in as a
parameter; the loop body is translated as is: each row is validated
(row numbers start at 2, row 1 being the header), valid rows gain
processing metadata, invalid rows gain rejection metadata, and each row
is appended to exactly one of the two output lists. -/

/-- Metadata added to a valid row before it is bucketed. -/
def annotateValid (ts cid srcKey : String) (row : Record) : Record :=
  ((row.set "processed_at" ts).set "correlation_id" cid).set "source_file" srcKey

/-- Metadata added to an invalid row before it is bucketed; the reasons are
joined by `", "` and the row number is rendered in the CSV as text. -/
def annotateInvalid (ts cid srcKey : String) (errs : List String) (n : Nat)
    (row : Record) : Record :=
  ((((row.set "rejection_reasons" (String.intercalate ", " errs)).set
      "rejected_at" ts).set "correlation_id" cid).set
      "row_number" (toString n)).set "source_file" srcKey

/-- The per-row loop of `process_csv_file`: returns the (valid, invalid)
output sequences in row order. -/
def process_csv_file (ts cid srcKey : String) :
    List Record → Nat → List Record × List Record
  | [], _ => ([], [])
  | row :: rest, n =>
      let verdict := validate_smartphone_record row n
      let out := process_csv_file ts cid srcKey rest (n + 1)
      if verdict.is_valid then
        (annotateValid ts cid srcKey row :: out.1, out.2)
      else
        (out.1, annotateInvalid ts cid srcKey verdict.errors n row :: out.2)

/-! ## The data quality score -/

/-- Round-half-to-even on an exact rational, modelling Python's `round`
over the idealised (exact) arithmetic. -/
def roundHalfEven (x : ℚ) : ℤ :=
  let n := ⌊x⌋
  if x - n < 1 / 2 then n
  else if 1 / 2 < x - n then n + 1
  else if n % 2 = 0 then n else n + 1

/-- Python `round(x, 2)` over the idealised arithmetic. -/
def pyRound2 (x : ℚ) : ℚ := (roundHalfEven (x * 100) : ℚ) / 100

/-- The score computed in `publish_processing_complete_event` (line 160):
`round((valid_count / (valid_count + invalid_count)) * 100, 2)` when the
total is positive, else `0`. -/
def data_quality_score (valid_count invalid_count : Nat) : ℚ :=
  if valid_count + invalid_count > 0 then
    pyRound2 (((valid_count : ℚ) / ((valid_count : ℚ) + (invalid_count : ℚ))) * 100)
  else 0

/-- Modelled from the spec: `data_quality_score =
round(100 × valid_count / (valid_count + invalid_count), 2), defined as 0
when both counts are 0`. Stated for comparison with the source's
expression. -/
def spec_data_quality_score (valid_count invalid_count : Nat) : ℚ :=
  if valid_count = 0 ∧ invalid_count = 0 then 0
  else pyRound2 (100 * (valid_count : ℚ) / ((valid_count : ℚ) + (invalid_count : ℚ)))

/-! ## Errors and the retry wrappers -/

/-- A Python exception as seen by the retry wrappers: a botocore
`ClientError` carrying its error code, or any other exception. -/
inductive PyErr where
  | clientError (code : String)
  | genericError (msg : String)
deriving DecidableEq

/-- The error codes that `process_csv_file_with_retry` refuses to retry
(source line 290). -/
def nonRetryableCodes : List String := ["NoSuchKey", "AccessDenied"]

/-- Trace of one run of a retry wrapper: the final outcome, the backoff
sleeps performed (in seconds, in order), and the number of attempts that
were started. -/
structure RetryTrace (α : Type) where
  result : Except PyErr α
  sleeps : List Nat
  attemptsUsed : Nat

/-- Loop of `process_csv_file_with_retry` (lines 279-319). The wrapped
operation is modelled as a function from the 0-based attempt index to that
attempt's outcome. A `ClientError` whose code is non-retryable re-raises
at once; any other failure sleeps `2^attempt + 1` seconds and retries
unless this was the last attempt, in which case it re-raises. The
`lastExc` accumulator models the `last_exception` variable feeding the
(unreachable for positive attempt budgets) final `raise`. -/
def processRetryLoop (op : Nat → Except PyErr α) (max_retries : Nat)
    (lastExc : Option PyErr) : Nat → Nat → RetryTrace α
  | _, 0 =>
      ⟨.error (lastExc.getD (.genericError "TypeError: exceptions must derive from BaseException")),
        [], 0⟩
  | attempt, fuel + 1 =>
      match op attempt with
      | .ok a => ⟨.ok a, [], 1⟩
      | .error e =>
          match e with
          | .clientError code =>
              if code ∈ nonRetryableCodes then ⟨.error e, [], 1⟩
              else if attempt < max_retries - 1 then
                let rest := processRetryLoop op max_retries (some e) (attempt + 1) fuel
                ⟨rest.result, (2 ^ attempt + 1) :: rest.sleeps, rest.attemptsUsed + 1⟩
              else ⟨.error e, [], 1⟩
          | .genericError _ =>
              if attempt < max_retries - 1 then
                let rest := processRetryLoop op max_retries (some e) (attempt + 1) fuel
                ⟨rest.result, (2 ^ attempt + 1) :: rest.sleeps, rest.attemptsUsed + 1⟩
              else ⟨.error e, [], 1⟩

/-- `process_csv_file_with_retry`: the download/validate phase, retried
with a default budget of 3 attempts. -/
def process_csv_file_with_retry (op : Nat → Except PyErr α)
    (max_retries : Nat := 3) : RetryTrace α :=
  processRetryLoop op max_retries none 0 max_retries

/-- Loop of `upload_results_with_retry` (lines 444-468): identical shape,
except that its single `except Exception` clause retries every failure —
including the `ClientError` codes that the download phase treats as
non-retryable. -/
def uploadRetryLoop (op : Nat → Except PyErr α) (max_retries : Nat)
    (lastExc : Option PyErr) : Nat → Nat → RetryTrace α
  | _, 0 =>
      ⟨.error (lastExc.getD (.genericError "TypeError: exceptions must derive from BaseException")),
        [], 0⟩
  | attempt, fuel + 1 =>
      match op attempt with
      | .ok a => ⟨.ok a, [], 1⟩
      | .error e =>
          if attempt < max_retries - 1 then
            let rest := uploadRetryLoop op max_retries (some e) (attempt + 1) fuel
            ⟨rest.result, (2 ^ attempt + 1) :: rest.sleeps, rest.attemptsUsed + 1⟩
          else ⟨.error e, [], 1⟩

/-- `upload_results_with_retry`: the dual-sink upload phase, retried with
a default budget of 3 attempts. -/
def upload_results_with_retry (op : Nat → Except PyErr α)
    (max_retries : Nat := 3) : RetryTrace α :=
  uploadRetryLoop op max_retries none 0 max_retries

/-! ## The completion publisher -/

/-- The part of the EventBridge `put_events` response the publisher
inspects. -/
structure PutEventsResponse where
  failedEntryCount : Nat
deriving DecidableEq

/-- Observable outcome of `publish_processing_complete_event`: how many
event entries were submitted to the bus (the function always submits one
entry when it publishes at all) and whether a publish failure was logged
at `ERROR` level. The function itself never raises: its body is one big
`try`/`except` whose handler only logs. -/
structure PublishResult where
  entriesSubmitted : Nat
  errorLogged : Bool
deriving DecidableEq

/-- `publish_processing_complete_event` (lines 135-201), with the remote
`put_events` outcome passed in: when `valid_count` is 0 it returns before
building any event; otherwise it submits exactly one entry, and treats
both a raised exception and a response with a positive
`FailedEntryCount` as a logged (never re-raised) error. -/
def publish_processing_complete_event (valid_count invalid_count : Nat)
    (putEventsOutcome : Except PyErr PutEventsResponse) : PublishResult :=
  let _ := invalid_count
  if valid_count = 0 then ⟨0, false⟩
  else
    match putEventsOutcome with
    | .error _ => ⟨1, true⟩
    | .ok resp => if resp.failedEntryCount > 0 then ⟨1, true⟩ else ⟨1, false⟩

/-! ## The object store, the idempotency guard and the handler -/

/-- The metadata `upload_csv_to_s3` attaches to an artifact that the
idempotency guard later reads back. -/
structure ArtifactMeta where
  sourceEtag : String
  recordCount : Nat
deriving DecidableEq

/-- The durable object store: keys with their metadata. -/
abbrev Store : Type := List (String × ArtifactMeta)

/-- Replace every occurrence of the pattern in the character list, as
Python `str.replace` does (fuelled so that it evaluates by kernel
reduction; the fuel is the list length, which suffices). -/
def replaceChars (pat : List Char) : Nat → List Char → List Char
  | 0, l => l
  | _ + 1, [] => []
  | fuel + 1, c :: cs =>
      if pat.isPrefixOf (c :: cs) ∧ pat ≠ [] then
        replaceChars pat fuel ((c :: cs).drop pat.length)
      else c :: replaceChars pat fuel cs

/-- Models `object_key.split('/')[-1].replace('.csv', '')` (lines 236 and
474). -/
def baseFilename (key : String) : String :=
  let lastPart := ((key.toList.splitOn '/').getLastD [])
  ⟨replaceChars ".csv".toList lastPart.length lastPart⟩

/-- Insert into a key-sorted object listing, keeping ascending key order. -/
def insertByKey (x : String × ArtifactMeta) :
    List (String × ArtifactMeta) → List (String × ArtifactMeta)
  | [] => [x]
  | y :: ys => if x.1 ≤ y.1 then x :: y :: ys else y :: insertByKey x ys

/-- Sort an object listing by key (insertion sort; structural, so it
evaluates by kernel reduction). -/
def sortByKey (l : List (String × ArtifactMeta)) : List (String × ArtifactMeta) :=
  l.foldr insertByKey []

/-- Models `list_objects_v2(Bucket=…, Prefix=pre, MaxKeys=10)`: S3 returns
keys in ascending lexicographic order, at most 10 of them. -/
def listObjectsV2 (store : Store) (pre : String) : List (String × ArtifactMeta) :=
  (sortByKey (store.filter (fun p => strStartsWith p.1 pre))).take 10

/-- The `processed_pre` variable of `is_already_processed`
(source line 241). -/
def processed_pre (object_key : String) : String :=
  "processed/" ++ baseFilename object_key ++ "_processed_"

/-- The `rejected_pre` variable of `is_already_processed`
(source line 242). -/
def rejected_pre (object_key : String) : String :=
  "rejected/" ++ baseFilename object_key ++ "_rejected_"

/-- `is_already_processed` (lines 230-277): the base name `bad` raises an
intentional error, which the surrounding `except` turns into `False`
(fail-open); otherwise each sink's candidate artifacts (at most 10 per
prefix) are probed for a stored `source-etag` equal to the current
upload's etag. -/
def is_already_processed (store : Store) (object_key object_etag : String) : Bool :=
  if baseFilename object_key == "bad" then false
  else
    [processed_pre object_key, rejected_pre object_key].any fun pre =>
      (listObjectsV2 store pre).any fun obj => obj.2.sourceEtag == object_etag

/-- `upload_results` (lines 470-499): each non-empty bucket is written as
one artifact named from the base name and the processing timestamp and
tagged with the source etag; empty buckets write nothing. Returns the new
store plus the optional artifact keys. -/
def upload_results (store : Store) (original_key ts source_etag : String)
    (valid_records invalid_records : List Record) :
    Store × Option String × Option String :=
  let processedKey := processed_pre original_key ++ ts ++ ".csv"
  let rejectedKey := rejected_pre original_key ++ ts ++ ".csv"
  let afterValid :=
    if valid_records.isEmpty then (store, (none : Option String))
    else (store ++ [(processedKey, ⟨source_etag, valid_records.length⟩)], some processedKey)
  let afterInvalid :=
    if invalid_records.isEmpty then (afterValid.1, (none : Option String))
    else (afterValid.1 ++ [(rejectedKey, ⟨source_etag, invalid_records.length⟩)], some rejectedKey)
  (afterInvalid.1, afterValid.2, afterInvalid.2)

/-- The handler's terminal outcome. Every constructor corresponds to a
`create_response(200, …)` success return in the source; the `ERRORED`
path is not reachable in this model because the download and upload
outcomes are passed in as already-successful data. -/
inductive RunOutcome where
  | notInput
  | duplicateSkipped
  | processed (validCount invalidCount : Nat)
      (processedFile rejectedFile : Option String)
deriving DecidableEq

/-- The success path of `lambda_handler` (lines 33-120) for one delivered
notification: location check, idempotency gate, partition of the
downloaded rows, dual-sink upload, then the best-effort completion
publish. The store, the parsed rows of the source object, the processing
timestamp, the correlation id and the `put_events` outcome are explicit
parameters. -/
def lambda_handler (store : Store) (object_key object_etag ts cid : String)
    (rows : List Record) (putEventsOutcome : Except PyErr PutEventsResponse) :
    Store × RunOutcome × PublishResult :=
  if ¬ strStartsWith object_key "input/" then (store, .notInput, ⟨0, false⟩)
  else if is_already_processed store object_key object_etag then
    (store, .duplicateSkipped, ⟨0, false⟩)
  else
    let parts := process_csv_file ts cid object_key rows 2
    let uploaded := upload_results store object_key ts object_etag parts.1 parts.2
    let pub := publish_processing_complete_event parts.1.length parts.2.length putEventsOutcome
    (uploaded.1, .processed parts.1.length parts.2.length uploaded.2.1 uploaded.2.2, pub)

/-! ## Per-rule range lemmas

Each rule block can only ever contribute reasons from its own fixed
message set; these lemmas let a claim about one rule's messages ignore
the other rules. -/

lemma errors_split (r : Record) (n : Nat) :
    (validate_smartphone_record r n).errors =
      requiredErrors r ++ priceErrors r ++ ramErrors r ++ storageErrors r ++
      dateErrors r ++ regionErrors r ++ modelErrors r := rfl

lemma requiredErrors_subset (r : Record) :
    ∀ x ∈ requiredErrors r,
      x ∈ ["Missing required field: order_id", "Missing required field: date",
           "Missing required field: brand", "Missing required field: price",
           "Missing required field: region"] := by
  intro x hx
  unfold requiredErrors at hx
  obtain ⟨f, hf, rfl⟩ := List.mem_map.mp hx
  have hf2 := List.mem_of_mem_filter hf
  fin_cases hf2 <;> simp

lemma priceBoundErrors_subset (p : PyFloat) :
    ∀ x ∈ priceBoundErrors p,
      x ∈ ["Price must be greater than 0", "Price exceeds maximum limit (10000)"] := by
  intro x hx
  unfold priceBoundErrors at hx
  rcases List.mem_append.mp hx with h | h <;> split at h <;> simp_all

lemma priceErrors_subset (r : Record) :
    ∀ x ∈ priceErrors r,
      x ∈ ["Price must be greater than 0", "Price exceeds maximum limit (10000)",
           "Invalid price format - must be a number"] := by
  intro x hx
  unfold priceErrors at hx
  split at hx
  · have h2 := priceBoundErrors_subset _ _ hx
    simp only [List.mem_cons, List.not_mem_nil, or_false] at h2
    rcases h2 with h | h <;> simp [h]
  · split at hx
    · have h2 := priceBoundErrors_subset _ _ hx
      simp only [List.mem_cons, List.not_mem_nil, or_false] at h2
      rcases h2 with h | h <;> simp [h]
    · simp_all

lemma ramErrors_subset (r : Record) :
    ∀ x ∈ ramErrors r,
      x ∈ ["RAM must be greater than 0", "RAM exceeds maximum limit (32GB)",
           "Invalid RAM format - must be a number"] := by
  intro x hx
  unfold ramErrors at hx
  dsimp only at hx
  split at hx
  · split at hx
    · rcases List.mem_append.mp hx with h | h <;> split at h <;> simp_all
    · simp_all
  · simp_all

lemma storageErrors_subset (r : Record) :
    ∀ x ∈ storageErrors r,
      x ∈ ["Storage must be greater than 0", "Invalid storage format - must be a number"] := by
  intro x hx
  unfold storageErrors at hx
  dsimp only at hx
  split at hx
  · split at hx
    · split at hx <;> simp_all
    · simp_all
  · simp_all

lemma dateErrors_subset (r : Record) :
    ∀ x ∈ dateErrors r, x ∈ ["Invalid date format - must be YYYY-MM-DD"] := by
  intro x hx
  unfold dateErrors at hx
  dsimp only at hx
  split at hx <;> simp_all

lemma regionErrors_subset (r : Record) :
    ∀ x ∈ regionErrors r,
      x ∈ ["Invalid region - must be one of: North America, South America, Europe, Asia, Africa, Oceania"] := by
  intro x hx
  unfold regionErrors at hx
  dsimp only at hx
  split at hx
  · simp_all
    decide
  · simp_all

lemma modelErrors_subset (r : Record) :
    ∀ x ∈ modelErrors r, x ∈ ["Model is required when brand is provided"] := by
  intro x hx
  unfold modelErrors at hx
  dsimp only at hx
  split at hx <;> simp_all

/-- Membership in the validator's reasons list is membership in one of
the seven rule blocks. -/
lemma mem_errors_iff (r : Record) (n : Nat) (x : String) :
    x ∈ (validate_smartphone_record r n).errors ↔
      x ∈ requiredErrors r ∨ x ∈ priceErrors r ∨ x ∈ ramErrors r ∨
      x ∈ storageErrors r ∨ x ∈ dateErrors r ∨ x ∈ regionErrors r ∨
      x ∈ modelErrors r := by
  rw [errors_split]
  simp [List.mem_append, or_assoc]

/-- A price-rule message appears in the verdict exactly when the price
rule produced it: no other rule can emit it. -/
lemma price_msg_mem_iff (r : Record) (n : Nat) (x : String)
    (hx : x ∈ ["Price must be greater than 0", "Price exceeds maximum limit (10000)",
               "Invalid price format - must be a number"]) :
    x ∈ (validate_smartphone_record r n).errors ↔ x ∈ priceErrors r := by
  rw [mem_errors_iff]
  constructor
  · intro h
    rcases h with h | h | h | h | h | h | h
    · exact absurd (requiredErrors_subset _ _ h) (by fin_cases hx <;> decide)
    · exact h
    · exact absurd (ramErrors_subset _ _ h) (by fin_cases hx <;> decide)
    · exact absurd (storageErrors_subset _ _ h) (by fin_cases hx <;> decide)
    · exact absurd (dateErrors_subset _ _ h) (by fin_cases hx <;> decide)
    · exact absurd (regionErrors_subset _ _ h) (by fin_cases hx <;> decide)
    · exact absurd (modelErrors_subset _ _ h) (by fin_cases hx <;> decide)
  · exact fun h => Or.inr (Or.inl h)

/-- The date-format message appears in the verdict exactly when the
date rule produced it. -/
lemma date_msg_mem_iff (r : Record) (n : Nat) :
    "Invalid date format - must be YYYY-MM-DD" ∈ (validate_smartphone_record r n).errors ↔
      "Invalid date format - must be YYYY-MM-DD" ∈ dateErrors r := by
  rw [mem_errors_iff]
  constructor
  · intro h
    rcases h with h | h | h | h | h | h | h
    · exact absurd (requiredErrors_subset _ _ h) (by decide)
    · exact absurd (priceErrors_subset _ _ h) (by decide)
    · exact absurd (ramErrors_subset _ _ h) (by decide)
    · exact absurd (storageErrors_subset _ _ h) (by decide)
    · exact h
    · exact absurd (regionErrors_subset _ _ h) (by decide)
    · exact absurd (modelErrors_subset _ _ h) (by decide)
  · exact fun h => Or.inr (Or.inr (Or.inr (Or.inr (Or.inl h))))

/-- The `Missing required field: price` message is in the verdict exactly
when the required-field check flags `price`. -/
lemma missing_price_mem_iff (r : Record) :
    "Missing required field: price" ∈ requiredErrors r ↔ fieldMissing r "price" = true := by
  unfold requiredErrors required_fields
  constructor
  · intro h
    obtain ⟨g, hg, heq⟩ := List.mem_map.mp h
    have hmem := List.mem_of_mem_filter hg
    have hmiss := List.of_mem_filter hg
    fin_cases hmem
    · exact absurd heq (by decide)
    · exact absurd heq (by decide)
    · exact absurd heq (by decide)
    · exact hmiss
    · exact absurd heq (by decide)
  · intro h
    exact List.mem_map.mpr ⟨"price", List.mem_filter.mpr ⟨by decide, h⟩, by decide⟩

/-- The `Missing required field: date` message is in the verdict exactly
when the required-field check flags `date`. -/
lemma missing_date_mem_iff (r : Record) :
    "Missing required field: date" ∈ requiredErrors r ↔ fieldMissing r "date" = true := by
  unfold requiredErrors required_fields
  constructor
  · intro h
    obtain ⟨g, hg, heq⟩ := List.mem_map.mp h
    have hmem := List.mem_of_mem_filter hg
    have hmiss := List.of_mem_filter hg
    fin_cases hmem
    · exact absurd heq (by decide)
    · exact hmiss
    · exact absurd heq (by decide)
    · exact absurd heq (by decide)
    · exact absurd heq (by decide)
  · intro h
    exact List.mem_map.mpr ⟨"date", List.mem_filter.mpr ⟨by decide, h⟩, by decide⟩

/-- A required-field message appears in the full verdict exactly when
rule 1 produced it. -/
lemma required_msg_mem_iff (r : Record) (n : Nat) (x : String)
    (hx : x ∈ ["Missing required field: order_id", "Missing required field: date",
               "Missing required field: brand", "Missing required field: price",
               "Missing required field: region"]) :
    x ∈ (validate_smartphone_record r n).errors ↔ x ∈ requiredErrors r := by
  rw [mem_errors_iff]
  constructor
  · intro h
    rcases h with h | h | h | h | h | h | h
    · exact h
    · exact absurd (priceErrors_subset _ _ h) (by fin_cases hx <;> decide)
    · exact absurd (ramErrors_subset _ _ h) (by fin_cases hx <;> decide)
    · exact absurd (storageErrors_subset _ _ h) (by fin_cases hx <;> decide)
    · exact absurd (dateErrors_subset _ _ h) (by fin_cases hx <;> decide)
    · exact absurd (regionErrors_subset _ _ h) (by fin_cases hx <;> decide)
    · exact absurd (modelErrors_subset _ _ h) (by fin_cases hx <;> decide)
  · exact fun h => Or.inl h

/-! ## Claim C2: the price rule -/

/-- C2: for every record whose price value parses as a (finite) number
`q`, `q ≤ 0` contributes exactly the `greater than 0` reason,
`q > 10000` exactly the `exceeds maximum` reason and `0 < q ≤ 10000`
no price reason; a non-parsing price value contributes exactly the
format reason and neither bound check fires. -/
theorem claim_C2_price_rule (r : Record) (n : Nat) (s : String)
    (hs : r.get "price" = some s) :
    (∀ q : ℚ, pyFloat s = some (.finite q) →
      ((q ≤ 0 →
          "Price must be greater than 0" ∈ (validate_smartphone_record r n).errors ∧
          "Price exceeds maximum limit (10000)" ∉ (validate_smartphone_record r n).errors ∧
          "Invalid price format - must be a number" ∉ (validate_smartphone_record r n).errors) ∧
       (10000 < q →
          "Price exceeds maximum limit (10000)" ∈ (validate_smartphone_record r n).errors ∧
          "Price must be greater than 0" ∉ (validate_smartphone_record r n).errors ∧
          "Invalid price format - must be a number" ∉ (validate_smartphone_record r n).errors) ∧
       (0 < q → q ≤ 10000 →
          "Price must be greater than 0" ∉ (validate_smartphone_record r n).errors ∧
          "Price exceeds maximum limit (10000)" ∉ (validate_smartphone_record r n).errors ∧
          "Invalid price format - must be a number" ∉ (validate_smartphone_record r n).errors))) ∧
    (pyFloat s = none →
       "Invalid price format - must be a number" ∈ (validate_smartphone_record r n).errors ∧
       "Price must be greater than 0" ∉ (validate_smartphone_record r n).errors ∧
       "Price exceeds maximum limit (10000)" ∉ (validate_smartphone_record r n).errors) := by
  have hgt0 := price_msg_mem_iff r n "Price must be greater than 0" (by decide)
  have hmax := price_msg_mem_iff r n "Price exceeds maximum limit (10000)" (by decide)
  have hfmt := price_msg_mem_iff r n "Invalid price format - must be a number" (by decide)
  constructor
  · intro q hq
    have hpe : priceErrors r = priceBoundErrors (.finite q) := by
      simp [priceErrors, hs, hq]
    refine ⟨fun hle => ?_, fun hgt => ?_, fun h0 h10 => ?_⟩
    · have hb : priceBoundErrors (.finite q) = ["Price must be greater than 0"] := by
        have h1 : (PyFloat.finite q).leZero = true := by simp [PyFloat.leZero, hle]
        have h2 : (PyFloat.finite q).gtTenThousand = false := by
          simp [PyFloat.gtTenThousand]
          linarith
        simp [priceBoundErrors, h1, h2]
      refine ⟨hgt0.mpr (by rw [hpe, hb]; simp), ?_, ?_⟩
      · intro hmem
        have h3 := hmax.mp hmem
        rw [hpe, hb] at h3
        exact absurd h3 (by decide)
      · intro hmem
        have h3 := hfmt.mp hmem
        rw [hpe, hb] at h3
        exact absurd h3 (by decide)
    · have hb : priceBoundErrors (.finite q) = ["Price exceeds maximum limit (10000)"] := by
        have h1 : (PyFloat.finite q).leZero = false := by
          simp [PyFloat.leZero]
          linarith
        have h2 : (PyFloat.finite q).gtTenThousand = true := by
          simp [PyFloat.gtTenThousand, hgt]
        simp [priceBoundErrors, h1, h2]
      refine ⟨hmax.mpr (by rw [hpe, hb]; simp), ?_, ?_⟩
      · intro hmem
        have h3 := hgt0.mp hmem
        rw [hpe, hb] at h3
        exact absurd h3 (by decide)
      · intro hmem
        have h3 := hfmt.mp hmem
        rw [hpe, hb] at h3
        exact absurd h3 (by decide)
    · have hb : priceBoundErrors (.finite q) = [] := by
        have h1 : (PyFloat.finite q).leZero = false := by
          simp [PyFloat.leZero]
          linarith
        have h2 : (PyFloat.finite q).gtTenThousand = false := by
          simp [PyFloat.gtTenThousand]
          linarith
        simp [priceBoundErrors, h1, h2]
      refine ⟨?_, ?_, ?_⟩ <;> intro hmem
      · have h3 := hgt0.mp hmem
        rw [hpe, hb] at h3
        exact absurd h3 (by decide)
      · have h3 := hmax.mp hmem
        rw [hpe, hb] at h3
        exact absurd h3 (by decide)
      · have h3 := hfmt.mp hmem
        rw [hpe, hb] at h3
        exact absurd h3 (by decide)
  · intro hnone
    have hpe : priceErrors r = ["Invalid price format - must be a number"] := by
      simp [priceErrors, hs, hnone]
    refine ⟨hfmt.mpr (by rw [hpe]; simp), ?_, ?_⟩ <;> intro hmem
    · have h3 := hgt0.mp hmem
      rw [hpe] at h3
      exact absurd h3 (by decide)
    · have h3 := hmax.mp hmem
      rw [hpe] at h3
      exact absurd h3 (by decide)

/-- Witness for C2 at the concrete record `{price: "-5"}`: the price
parses as the number −5 ≤ 0 and the verdict carries exactly the
`greater than 0` price reason. -/
theorem claim_C2_price_rule_witness :
    Record.get [("price", "-5")] "price" = some "-5" ∧
    pyFloat "-5" = some (.finite (-5)) ∧
    "Price must be greater than 0" ∈ (validate_smartphone_record [("price", "-5")] 7).errors ∧
    "Invalid price format - must be a number" ∉
      (validate_smartphone_record [("price", "-5")] 7).errors := by
  refine ⟨rfl, by decide, ?_, ?_⟩
  · exact (((claim_C2_price_rule [("price", "-5")] 7 "-5" rfl).1 (-5)
      (by decide)).1 (by norm_num)).1
  · exact (((claim_C2_price_rule [("price", "-5")] 7 "-5" rfl).1 (-5)
      (by decide)).1 (by norm_num)).2.2

/-! ## Claim C3: empty dates -/

/-- C3 counterexample: a record that is valid in every respect except an
empty `date` is rejected with the date-related reason
`Missing required field: date` (the same record with a date is valid), so
an empty date does *not* leave the verdict unaffected: `date` is in the
required-field list at source line 380. -/
theorem claim_C3_counterexample :
    (validate_smartphone_record
        [("order_id", "1"), ("date", ""), ("brand", "Apple"), ("model", "iPhone"),
         ("price", "999"), ("region", "Asia")] 2).errors =
      ["Missing required field: date"] ∧
    (validate_smartphone_record
        [("order_id", "1"), ("date", ""), ("brand", "Apple"), ("model", "iPhone"),
         ("price", "999"), ("region", "Asia")] 2).is_valid = false ∧
    (validate_smartphone_record
        [("order_id", "1"), ("date", "2024-03-26"), ("brand", "Apple"), ("model", "iPhone"),
         ("price", "999"), ("region", "Asia")] 2).is_valid = true := by
  refine ⟨by decide, by decide, by decide⟩

/-- C3 as amended: for every record whose date is empty after trimming,
the date-format rule is indeed skipped (no
`Invalid date format` reason), but `date` *is* in the required-field
list, so the verdict carries `Missing required field: date` and the
record is invalid. -/
theorem claim_C3_empty_date (r : Record) (n : Nat)
    (h : pyStrip ((r.get "date").getD "") = "") :
    "Invalid date format - must be YYYY-MM-DD" ∉ (validate_smartphone_record r n).errors ∧
    "Missing required field: date" ∈ (validate_smartphone_record r n).errors ∧
    (validate_smartphone_record r n).is_valid = false := by
  have hde : dateErrors r = [] := by
    unfold dateErrors
    dsimp only
    rw [h]
    simp
  have hfm : fieldMissing r "date" = true := by
    unfold fieldMissing
    cases hg : r.get "date" with
    | none => rfl
    | some s =>
        rw [hg] at h
        simp only [Option.getD_some] at h
        simp [h]
  have hmem : "Missing required field: date" ∈ (validate_smartphone_record r n).errors :=
    (required_msg_mem_iff r n _ (by decide)).mpr ((missing_date_mem_iff r).mpr hfm)
  refine ⟨?_, hmem, ?_⟩
  · intro hmem2
    have h3 := (date_msg_mem_iff r n).mp hmem2
    rw [hde] at h3
    exact absurd h3 (by decide)
  · have hne : (validate_smartphone_record r n).errors ≠ [] := List.ne_nil_of_mem hmem
    have hlen : (validate_smartphone_record r n).errors.length ≠ 0 := by
      simpa [List.length_eq_zero] using hne
    have hv : (validate_smartphone_record r n).is_valid =
        ((validate_smartphone_record r n).errors.length == 0) := rfl
    rw [hv]
    exact beq_eq_false_iff_ne.mpr hlen

/-- Witness for the amended C3 at the concrete record
`{date: "  "}` (whitespace-only date). -/
theorem claim_C3_empty_date_witness :
    pyStrip ((Record.get [("date", "  ")] "date").getD "") = "" ∧
    "Invalid date format - must be YYYY-MM-DD" ∉
      (validate_smartphone_record [("date", "  ")] 2).errors ∧
    (validate_smartphone_record [("date", "  ")] 2).is_valid = false := by
  refine ⟨by decide, ?_, ?_⟩
  · exact (claim_C3_empty_date [("date", "  ")] 2 (by decide)).1
  · exact (claim_C3_empty_date [("date", "  ")] 2 (by decide)).2.2

/-! ## Claim C10: absent price versus empty price -/

/-- C10: a record with no price field at all defaults the price to the
number 0, so it gets both the missing-field reason and the
`greater than 0` reason but not the format reason; a record whose price
is the empty string fails the parse instead, getting the missing-field
reason together with the format reason but no bound reason. -/
theorem claim_C10_price_default (r : Record) (n : Nat) :
    (r.get "price" = none →
       "Missing required field: price" ∈ (validate_smartphone_record r n).errors ∧
       "Price must be greater than 0" ∈ (validate_smartphone_record r n).errors ∧
       "Invalid price format - must be a number" ∉ (validate_smartphone_record r n).errors) ∧
    (r.get "price" = some "" →
       "Missing required field: price" ∈ (validate_smartphone_record r n).errors ∧
       "Invalid price format - must be a number" ∈ (validate_smartphone_record r n).errors ∧
       "Price must be greater than 0" ∉ (validate_smartphone_record r n).errors) := by
  constructor
  · intro hg
    have hfm : fieldMissing r "price" = true := by simp [fieldMissing, hg]
    have hpe : priceErrors r = ["Price must be greater than 0"] := by
      unfold priceErrors
      rw [hg]
      decide
    refine ⟨(required_msg_mem_iff r n _ (by decide)).mpr ((missing_price_mem_iff r).mpr hfm),
            (price_msg_mem_iff r n _ (by decide)).mpr (by rw [hpe]; simp), ?_⟩
    intro hmem
    have h3 := (price_msg_mem_iff r n _ (by decide)).mp hmem
    rw [hpe] at h3
    exact absurd h3 (by decide)
  · intro hg
    have hfm : fieldMissing r "price" = true := by simp [fieldMissing, hg]
    have hpe : priceErrors r = ["Invalid price format - must be a number"] := by
      simp [priceErrors, hg]
      decide
    refine ⟨(required_msg_mem_iff r n _ (by decide)).mpr ((missing_price_mem_iff r).mpr hfm),
            (price_msg_mem_iff r n _ (by decide)).mpr (by rw [hpe]; simp), ?_⟩
    intro hmem
    have h3 := (price_msg_mem_iff r n _ (by decide)).mp hmem
    rw [hpe] at h3
    exact absurd h3 (by decide)

/-- Witness for C10 at the concrete records `{}` (no price key) and
`{price: ""}`. -/
theorem claim_C10_price_default_witness :
    Record.get [] "price" = none ∧
    "Price must be greater than 0" ∈ (validate_smartphone_record [] 2).errors ∧
    Record.get [("price", "")] "price" = some "" ∧
    "Invalid price format - must be a number" ∈
      (validate_smartphone_record [("price", "")] 2).errors := by
  refine ⟨rfl, ?_, rfl, ?_⟩
  · exact ((claim_C10_price_default [] 2).1 rfl).2.1
  · exact ((claim_C10_price_default [("price", "")] 2).2 rfl).2.1

/-! ## Claims C8 and C9: verdict shape, determinism, routing -/

/-- C8: the validator is a total function in the embedding (every Python
failure mode inside it is caught and turned into a reason, so no
exception escapes), it is deterministic, and the `row_number` argument
has no influence on the verdict. -/
theorem claim_C8_validator_pure :
    ∀ (r : Record) (n m : Nat),
      validate_smartphone_record r n = validate_smartphone_record r m :=
  fun _ _ _ => rfl

/-- The verdict flag is exactly emptiness of the reasons list. -/
lemma is_valid_iff_errors_nil (r : Record) (n : Nat) :
    (validate_smartphone_record r n).is_valid = true ↔
      (validate_smartphone_record r n).errors = [] := by
  have hv : (validate_smartphone_record r n).is_valid =
      ((validate_smartphone_record r n).errors.length == 0) := rfl
  rw [hv]
  simp [List.length_eq_zero]

/-- Every element of the valid bucket is an annotated row whose verdict
had no reasons. -/
lemma mem_valid_bucket (ts cid k : String) :
    ∀ (rows : List Record) (n : Nat) (v : Record),
      v ∈ (process_csv_file ts cid k rows n).1 →
      ∃ row m, v = annotateValid ts cid k row ∧
        (validate_smartphone_record row m).errors = []
  | [], _, v => by simp [process_csv_file]
  | row :: rest, n, v => by
      intro hv
      unfold process_csv_file at hv
      dsimp only at hv
      by_cases h : (validate_smartphone_record row n).is_valid = true
      · rw [if_pos h] at hv
        rcases List.mem_cons.mp hv with h1 | h1
        · exact ⟨row, n, h1, (is_valid_iff_errors_nil row n).mp h⟩
        · exact mem_valid_bucket ts cid k rest (n + 1) v h1
      · rw [if_neg h] at hv
        exact mem_valid_bucket ts cid k rest (n + 1) v hv

/-- Every element of the invalid bucket is an annotated row carrying the
(nonempty) reasons of its own verdict. -/
lemma mem_invalid_bucket (ts cid k : String) :
    ∀ (rows : List Record) (n : Nat) (iv : Record),
      iv ∈ (process_csv_file ts cid k rows n).2 →
      ∃ row m, iv = annotateInvalid ts cid k
          (validate_smartphone_record row m).errors m row ∧
        (validate_smartphone_record row m).errors ≠ []
  | [], _, iv => by simp [process_csv_file]
  | row :: rest, n, iv => by
      intro hv
      unfold process_csv_file at hv
      dsimp only at hv
      by_cases h : (validate_smartphone_record row n).is_valid = true
      · rw [if_pos h] at hv
        exact mem_invalid_bucket ts cid k rest (n + 1) iv hv
      · rw [if_neg h] at hv
        rcases List.mem_cons.mp hv with h1 | h1
        · exact ⟨row, n, h1, fun he => h ((is_valid_iff_errors_nil row n).mpr he)⟩
        · exact mem_invalid_bucket ts cid k rest (n + 1) iv h1

/-- C9: a verdict is valid exactly when its reasons list is empty, every
record routed to the rejected bucket carries the (nonempty) reasons of
an invalid verdict, and every record routed to the processed bucket
comes from a verdict with no reasons. -/
theorem claim_C9_verdict_reasons :
    (∀ (r : Record) (n : Nat),
       (validate_smartphone_record r n).is_valid = true ↔
         (validate_smartphone_record r n).errors = []) ∧
    (∀ (ts cid k : String) (rows : List Record) (n : Nat) (v : Record),
       v ∈ (process_csv_file ts cid k rows n).1 →
       ∃ row m, v = annotateValid ts cid k row ∧
         (validate_smartphone_record row m).errors = []) ∧
    (∀ (ts cid k : String) (rows : List Record) (n : Nat) (iv : Record),
       iv ∈ (process_csv_file ts cid k rows n).2 →
       ∃ row m, iv = annotateInvalid ts cid k
           (validate_smartphone_record row m).errors m row ∧
         (validate_smartphone_record row m).errors ≠ []) :=
  ⟨is_valid_iff_errors_nil,
   fun ts cid k rows n v => mem_valid_bucket ts cid k rows n v,
   fun ts cid k rows n iv => mem_invalid_bucket ts cid k rows n iv⟩

set_option maxRecDepth 4000 in
/-- Witness for C9: the single invalid row `{price: "0"}` lands in the
rejected bucket carrying the nonempty reasons of its verdict. -/
theorem claim_C9_verdict_reasons_witness :
    ∃ row m,
      annotateInvalid "t" "c" "input/x.csv"
          (validate_smartphone_record [("price", "0")] 2).errors 2 [("price", "0")] =
        annotateInvalid "t" "c" "input/x.csv"
          (validate_smartphone_record row m).errors m row ∧
      (validate_smartphone_record row m).errors ≠ [] :=
  claim_C9_verdict_reasons.2.2 "t" "c" "input/x.csv" [[("price", "0")]] 2 _ (by decide)

/-! ## Claim C4: no row is dropped -/

/-- The partition loop conserves rows. -/
lemma process_csv_file_length (ts cid k : String) :
    ∀ (rows : List Record) (n : Nat),
      (process_csv_file ts cid k rows n).1.length +
        (process_csv_file ts cid k rows n).2.length = rows.length
  | [], _ => rfl
  | row :: rest, n => by
      unfold process_csv_file
      dsimp only
      have ih := process_csv_file_length ts cid k rest (n + 1)
      by_cases h : (validate_smartphone_record row n).is_valid = true
      · rw [if_pos h]
        simp only [List.length_cons]
        omega
      · rw [if_neg h]
        simp only [List.length_cons]
        omega

/-- C4: every data row is routed to exactly one of the two buckets and
none is dropped — the bucket lengths always sum to the number of rows
read, and this total is invariant under any permutation of the rows. -/
theorem claim_C4_row_conservation :
    (∀ (ts cid k : String) (rows : List Record) (n : Nat),
       (process_csv_file ts cid k rows n).1.length +
         (process_csv_file ts cid k rows n).2.length = rows.length) ∧
    (∀ (ts cid k : String) (rows rows2 : List Record) (n n2 : Nat),
       rows.Perm rows2 →
       (process_csv_file ts cid k rows n).1.length +
         (process_csv_file ts cid k rows n).2.length =
       (process_csv_file ts cid k rows2 n2).1.length +
         (process_csv_file ts cid k rows2 n2).2.length) := by
  refine ⟨process_csv_file_length, ?_⟩
  intro ts cid k rows rows2 n n2 hperm
  rw [process_csv_file_length ts cid k rows n,
      process_csv_file_length ts cid k rows2 n2]
  exact hperm.length_eq

/-- Witness for C4 at a concrete two-row input and its transposition. -/
theorem claim_C4_row_conservation_witness :
    (process_csv_file "t" "c" "k" [[("price", "0")], []] 2).1.length +
      (process_csv_file "t" "c" "k" [[("price", "0")], []] 2).2.length =
    (process_csv_file "t" "c" "k" [[], [("price", "0")]] 5).1.length +
      (process_csv_file "t" "c" "k" [[], [("price", "0")]] 5).2.length :=
  claim_C4_row_conservation.2 "t" "c" "k" _ _ 2 5 (List.Perm.swap _ _ _)

/-! ## Claim C5: the data quality score -/

/-- C5: the score the code computes, `round((v / (v+i)) * 100, 2)` with a
zero-total guard, equals the specified `round(100 × v / (v+i), 2)` (0
when both counts are 0) for all counts; in particular it is 0 at (0,0)
and 70 at (7,3). -/
theorem claim_C5_quality_score :
    (∀ v i : Nat, data_quality_score v i = spec_data_quality_score v i) ∧
    data_quality_score 0 0 = 0 ∧
    data_quality_score 7 3 = 70 := by
  refine ⟨?_, by norm_num [data_quality_score],
          by norm_num [data_quality_score, pyRound2, roundHalfEven]⟩
  intro v i
  unfold data_quality_score spec_data_quality_score
  by_cases h : v + i > 0
  · have h2 : ¬(v = 0 ∧ i = 0) := by omega
    rw [if_pos h, if_neg h2]
    congr 1
    rw [div_mul_eq_mul_div, mul_comm]
  · have h2 : v = 0 ∧ i = 0 := by omega
    rw [if_neg h, if_pos h2]

/-! ## Claim C6: retry policies of the two phases -/

/-- A failure the download wrapper's policy will retry: any generic
exception, or a `ClientError` whose code is not in the non-retryable
list. -/
def retryableFailure {α : Type} : Except PyErr α → Prop
  | .ok _ => False
  | .error (.clientError c) => c ∉ nonRetryableCodes
  | .error (.genericError _) => True

/-- If the first `k` attempts fail retryably, attempts stay within the
budget, and attempt `k` raises a non-retryable `ClientError`, then the
download retry loop stops right there: the error propagates, exactly the
`k` earlier backoffs were slept, and exactly `k + 1` attempts ran. -/
lemma processRetryLoop_nonretryable {α : Type} (op : Nat → Except PyErr α)
    (max_retries : Nat) :
    ∀ (k attempt fuel : Nat) (lastExc : Option PyErr) (code : String),
      code ∈ nonRetryableCodes → k < fuel → attempt + k ≤ max_retries - 1 →
      (∀ j, j < k → retryableFailure (op (attempt + j))) →
      op (attempt + k) = .error (.clientError code) →
      (processRetryLoop op max_retries lastExc attempt fuel).result =
          .error (.clientError code) ∧
      (processRetryLoop op max_retries lastExc attempt fuel).sleeps.length = k ∧
      (processRetryLoop op max_retries lastExc attempt fuel).attemptsUsed = k + 1 := by
  intro k
  induction k with
  | zero =>
      intro attempt fuel lastExc code hcode hfuel _ _ hk
      cases fuel with
      | zero => omega
      | succ f =>
          rw [Nat.add_zero] at hk
          unfold processRetryLoop
          rw [hk]
          simp [hcode]
  | succ k ih =>
      intro attempt fuel lastExc code hcode hfuel hbudget hpre hk
      cases fuel with
      | zero => omega
      | succ f =>
          have h0 := hpre 0 (by omega)
          rw [Nat.add_zero] at h0
          have hlt : attempt < max_retries - 1 := by omega
          have hpre2 : ∀ j, j < k → retryableFailure (op (attempt + 1 + j)) := by
            intro j hj
            have h2 := hpre (j + 1) (by omega)
            rwa [show attempt + (j + 1) = attempt + 1 + j by omega] at h2
          have hk2 : op (attempt + 1 + k) = .error (.clientError code) := by
            rwa [show attempt + (k + 1) = attempt + 1 + k by omega] at hk
          cases hop : op attempt with
          | ok a =>
              rw [hop] at h0
              exact absurd h0 (by simp [retryableFailure])
          | error e =>
              rw [hop] at h0
              cases e with
              | clientError c =>
                  have hc : c ∉ nonRetryableCodes := by
                    simpa [retryableFailure] using h0
                  have ihres := ih (attempt + 1) f (some (.clientError c)) code hcode
                    (by omega) (by omega) hpre2 hk2
                  unfold processRetryLoop
                  rw [hop]
                  simp only [if_neg hc, if_pos hlt]
                  refine ⟨ihres.1, ?_, ?_⟩ <;> simp [ihres.2.1, ihres.2.2]
              | genericError msg =>
                  have ihres := ih (attempt + 1) f (some (.genericError msg)) code hcode
                    (by omega) (by omega) hpre2 hk2
                  unfold processRetryLoop
                  rw [hop]
                  simp only [if_pos hlt]
                  refine ⟨ihres.1, ?_, ?_⟩ <;> simp [ihres.2.1, ihres.2.2]

/-- C6 counterexample: in the upload phase, a constant `AccessDenied`
`ClientError` — a non-retryable class per the claim — is *not* propagated
immediately: `upload_results_with_retry` sleeps 2 then 3 seconds and
consumes all 3 attempts before re-raising it. -/
theorem claim_C6_counterexample :
    (upload_results_with_retry
        (fun _ => (.error (.clientError "AccessDenied") : Except PyErr Unit)) 3).sleeps
      = [2, 3] ∧
    (upload_results_with_retry
        (fun _ => (.error (.clientError "AccessDenied") : Except PyErr Unit)) 3).attemptsUsed
      = 3 ∧
    (upload_results_with_retry
        (fun _ => (.error (.clientError "AccessDenied") : Except PyErr Unit)) 3).result
      = .error (.clientError "AccessDenied") :=
  ⟨rfl, rfl, rfl⟩

/-- C6 as amended: only the download/validate wrapper short-circuits on
the non-retryable codes — there a `NoSuchKey`/`AccessDenied`
`ClientError` propagates on the attempt where it occurs, with no backoff
sleep for it and no further attempts. The upload wrapper's single
`except Exception` clause has no non-retryable class: it backs off and
retries every failure until the attempt budget is exhausted. -/
theorem claim_C6_retry_policies :
    (∀ (α : Type) (op : Nat → Except PyErr α) (k max_retries : Nat) (code : String),
       code ∈ nonRetryableCodes → k < max_retries → k ≤ max_retries - 1 →
       (∀ j, j < k → retryableFailure (op j)) →
       op k = .error (.clientError code) →
       (process_csv_file_with_retry op max_retries).result = .error (.clientError code) ∧
       (process_csv_file_with_retry op max_retries).sleeps.length = k ∧
       (process_csv_file_with_retry op max_retries).attemptsUsed = k + 1) ∧
    (∀ (α : Type) (op : Nat → Except PyErr α) (e : PyErr),
       (∀ j, op j = .error e) →
       upload_results_with_retry op 3 = ⟨.error e, [2, 3], 3⟩) := by
  constructor
  · intro α op k max_retries code hcode hf hb hpre hk
    exact processRetryLoop_nonretryable op max_retries k 0 max_retries none code hcode hf
      (by omega) (by simpa using hpre) (by simpa using hk)
  · intro α op e h
    simp [upload_results_with_retry, uploadRetryLoop, h 0, h 1, h 2]

/-- Witness for the amended C6: one retryable timeout, then a
`NoSuchKey` on attempt 1 — the download wrapper stops after 2 attempts
with the single backoff that preceded the fatal attempt; and the upload
wrapper run to exhaustion on a constant generic failure. -/
theorem claim_C6_retry_policies_witness :
    ((process_csv_file_with_retry
        (fun j => if j = 0 then (.error (.genericError "timeout") : Except PyErr Unit)
                  else .error (.clientError "NoSuchKey")) 3).sleeps.length = 1 ∧
     (process_csv_file_with_retry
        (fun j => if j = 0 then (.error (.genericError "timeout") : Except PyErr Unit)
                  else .error (.clientError "NoSuchKey")) 3).attemptsUsed = 2) ∧
    upload_results_with_retry
        (fun _ => (.error (.genericError "boom") : Except PyErr Unit)) 3 =
      ⟨.error (.genericError "boom"), [2, 3], 3⟩ := by
  constructor
  · have h := claim_C6_retry_policies.1 Unit
      (fun j => if j = 0 then (.error (.genericError "timeout") : Except PyErr Unit)
                else .error (.clientError "NoSuchKey")) 1 3 "NoSuchKey"
      (by decide) (by omega) (by omega)
      (fun j hj => by
        have hj0 : j = 0 := by omega
        subst hj0
        simp [retryableFailure])
      (by simp)
    exact ⟨h.2.1, h.2.2⟩
  · exact claim_C6_retry_policies.2 Unit _ (.genericError "boom") (fun _ => rfl)

/-! ## Claim C7: the completion publisher is best-effort -/

/-- C7: no event is submitted when `valid_count` is 0; exactly one entry
is submitted whenever `valid_count > 0`; a raised publish exception or a
response with rejected entries is logged as an error; and the publish
outcome never changes the durable store or the handler's (success)
outcome — the handler's result is the same whatever the `put_events`
outcome was. -/
theorem claim_C7_publisher_best_effort :
    (∀ (i : Nat) (resp : Except PyErr PutEventsResponse),
       publish_processing_complete_event 0 i resp = ⟨0, false⟩) ∧
    (∀ (v i : Nat) (resp : Except PyErr PutEventsResponse), 0 < v →
       (publish_processing_complete_event v i resp).entriesSubmitted = 1) ∧
    (∀ (v i : Nat) (e : PyErr), 0 < v →
       (publish_processing_complete_event v i (.error e)).errorLogged = true) ∧
    (∀ (v i k : Nat), 0 < v → 0 < k →
       (publish_processing_complete_event v i (.ok ⟨k⟩)).errorLogged = true) ∧
    (∀ (v i : Nat), 0 < v →
       publish_processing_complete_event v i (.ok ⟨0⟩) = ⟨1, false⟩) ∧
    (∀ (store : Store) (object_key object_etag ts cid : String) (rows : List Record)
       (resp resp2 : Except PyErr PutEventsResponse),
       (lambda_handler store object_key object_etag ts cid rows resp).1 =
         (lambda_handler store object_key object_etag ts cid rows resp2).1 ∧
       (lambda_handler store object_key object_etag ts cid rows resp).2.1 =
         (lambda_handler store object_key object_etag ts cid rows resp2).2.1) := by
  refine ⟨?_, ?_, ?_, ?_, ?_, ?_⟩
  · intro i resp
    simp [publish_processing_complete_event]
  · intro v i resp hv
    cases resp with
    | error e => simp [publish_processing_complete_event, hv.ne']
    | ok r =>
        by_cases hk : r.failedEntryCount > 0 <;>
          simp [publish_processing_complete_event, hv.ne', hk]
  · intro v i e hv
    simp [publish_processing_complete_event, hv.ne']
  · intro v i k hv hk
    simp [publish_processing_complete_event, hv.ne', hk]
  · intro v i hv
    simp [publish_processing_complete_event, hv.ne']
  · intro store object_key object_etag ts cid rows resp resp2
    unfold lambda_handler
    split_ifs <;> exact ⟨rfl, rfl⟩

/-- Witness for C7 at `valid_count = 1`: a raised publish error is
logged, and a clean response publishes one entry with nothing logged. -/
theorem claim_C7_publisher_best_effort_witness :
    (publish_processing_complete_event 1 0 (.error (.genericError "boom"))).errorLogged
      = true ∧
    publish_processing_complete_event 1 2 (.ok ⟨0⟩) = ⟨1, false⟩ :=
  ⟨claim_C7_publisher_best_effort.2.2.1 1 0 (.genericError "boom") (by omega),
   claim_C7_publisher_best_effort.2.2.2.2.1 1 2 (by omega)⟩

/-! ## Claim C1: idempotency of re-delivery -/

lemma strStartsWith_append_self (a t u : String) :
    strStartsWith (a ++ t ++ u) a = true := by
  unfold strStartsWith
  show a.data.isPrefixOf (a ++ t ++ u).data = true
  rw [String.data_append, String.data_append, List.append_assoc]
  exact List.isPrefixOf_iff_prefix.mpr (List.prefix_append _ _)

lemma data_head_append (x y : String) (c : Char) (h : x.data.head? = some c) :
    (x ++ y).data.head? = some c := by
  rw [String.data_append]
  cases hx : x.data with
  | nil => rw [hx] at h; exact absurd h (by simp)
  | cons a as =>
      rw [hx] at h
      simp only [List.head?_cons, Option.some.injEq] at h
      simp [h]

lemma strStartsWith_false_of_head_ne (s pre : String)
    (hne : pre.data ≠ []) (h : pre.data.head? ≠ s.data.head?) :
    strStartsWith s pre = false := by
  unfold strStartsWith
  show pre.data.isPrefixOf s.data = false
  cases hp : pre.data with
  | nil => exact absurd hp hne
  | cons b bs =>
      cases hs : s.data with
      | nil => rfl
      | cons a as =>
          rw [hp, hs] at h
          simp only [List.head?_cons, ne_eq, Option.some.injEq] at h
          show (b == a && bs.isPrefixOf as) = false
          rw [beq_eq_false_iff_ne.mpr h, Bool.false_and]

/-- The head character of a processed-sink key is `p`. -/
lemma processed_key_head (key ts : String) :
    (processed_pre key ++ ts ++ ".csv").data.head? = some 'p' := by
  unfold processed_pre
  exact data_head_append _ _ _ (data_head_append _ _ _
    (data_head_append _ _ _ (data_head_append _ _ _ rfl)))

/-- The head character of a rejected-sink key is `r`. -/
lemma rejected_key_head (key ts : String) :
    (rejected_pre key ++ ts ++ ".csv").data.head? = some 'r' := by
  unfold rejected_pre
  exact data_head_append _ _ _ (data_head_append _ _ _
    (data_head_append _ _ _ (data_head_append _ _ _ rfl)))

lemma processed_pre_head (key : String) :
    (processed_pre key).data.head? = some 'p' := by
  unfold processed_pre
  exact data_head_append _ _ _ (data_head_append _ _ _ rfl)

lemma rejected_pre_head (key : String) :
    (rejected_pre key).data.head? = some 'r' := by
  unfold rejected_pre
  exact data_head_append _ _ _ (data_head_append _ _ _ rfl)

lemma data_ne_nil_of_head (s : String) (c : Char) (h : s.data.head? = some c) :
    s.data ≠ [] := by
  intro hnil
  rw [hnil] at h
  exact absurd h (by simp)

/-- A rejected-sink key never matches the processed-sink prefix. -/
lemma rejected_key_not_processed (key key2 ts : String) :
    strStartsWith (rejected_pre key ++ ts ++ ".csv") (processed_pre key2) = false := by
  refine strStartsWith_false_of_head_ne _ _
    (data_ne_nil_of_head _ _ (processed_pre_head key2)) ?_
  rw [processed_pre_head key2, rejected_key_head key ts]
  simp

/-- A processed-sink key never matches the rejected-sink prefix. -/
lemma processed_key_not_rejected (key key2 ts : String) :
    strStartsWith (processed_pre key ++ ts ++ ".csv") (rejected_pre key2) = false := by
  refine strStartsWith_false_of_head_ne _ _
    (data_ne_nil_of_head _ _ (rejected_pre_head key2)) ?_
  rw [rejected_pre_head key2, processed_key_head key ts]
  simp

/-- An S3 listing over a prefix no stored key matches is empty. -/
lemma listObjectsV2_nil (store : Store) (pre : String)
    (h : ∀ p ∈ store, strStartsWith p.1 pre = false) :
    listObjectsV2 store pre = [] := by
  unfold listObjectsV2
  rw [List.filter_eq_nil_iff.mpr (fun a ha => by simp [h a ha])]
  rfl

/-- The guard reports not-yet-processed when no stored key matches either
sink prefix. -/
lemma is_already_processed_false (store : Store) (object_key object_etag : String)
    (h : ∀ p ∈ store,
      strStartsWith p.1 (processed_pre object_key) = false ∧
      strStartsWith p.1 (rejected_pre object_key) = false) :
    is_already_processed store object_key object_etag = false := by
  unfold is_already_processed
  split
  · rfl
  · simp only [List.any_cons, List.any_nil, Bool.or_false]
    rw [listObjectsV2_nil store _ (fun p hp => (h p hp).1),
        listObjectsV2_nil store _ (fun p hp => (h p hp).2)]
    rfl

/-- The durable store after `upload_results`: the input store plus one
artifact per non-empty bucket. -/
lemma upload_results_store (store : Store) (original_key ts source_etag : String)
    (valid_records invalid_records : List Record) :
    (upload_results store original_key ts source_etag valid_records invalid_records).1 =
      store ++
      (if valid_records.isEmpty then []
       else [(processed_pre original_key ++ ts ++ ".csv",
              ⟨source_etag, valid_records.length⟩)]) ++
      (if invalid_records.isEmpty then []
       else [(rejected_pre original_key ++ ts ++ ".csv",
              ⟨source_etag, invalid_records.length⟩)]) := by
  unfold upload_results
  dsimp only
  by_cases hv : valid_records.isEmpty <;> by_cases hi : invalid_records.isEmpty <;>
    simp [hv, hi]

/-- A delivery under `input/` that the guard recognises short-circuits:
duplicate-skipped outcome, store untouched, nothing published. -/
lemma lambda_handler_duplicate (store : Store) (object_key object_etag ts cid : String)
    (rows : List Record) (resp : Except PyErr PutEventsResponse)
    (hkey : strStartsWith object_key "input/" = true)
    (hg : is_already_processed store object_key object_etag = true) :
    lambda_handler store object_key object_etag ts cid rows resp =
      (store, .duplicateSkipped, ⟨0, false⟩) := by
  unfold lambda_handler
  rw [if_neg (by simp [hkey]), if_pos (by simp [hg])]

/-- A delivery under `input/` that the guard does not recognise runs the
partition and leaves the store `upload_results` produced. -/
lemma lambda_handler_processed_store (store : Store)
    (object_key object_etag ts cid : String)
    (rows : List Record) (resp : Except PyErr PutEventsResponse)
    (hkey : strStartsWith object_key "input/" = true)
    (hg : is_already_processed store object_key object_etag = false) :
    (lambda_handler store object_key object_etag ts cid rows resp).1 =
      (upload_results store object_key ts object_etag
        (process_csv_file ts cid object_key rows 2).1
        (process_csv_file ts cid object_key rows 2).2).1 := by
  unfold lambda_handler
  rw [if_neg (by simp [hkey]), if_neg (by simp [hg])]

/-- C1 as amended: for a sequential re-delivery of an upload under
`input/` whose base name is not the intentional-error hook `bad`, with at
least one data row, starting from a store holding no artifact under
either derived sink prefix (so that the guard's 10-candidate cap cannot
hide the match), the second delivery is detected by the idempotency
guard, short-circuits to the duplicate-skipped outcome, writes nothing,
and the store holds at most one processed and at most one rejected
artifact carrying the upload's fingerprint. -/
theorem claim_C1_idempotent_redelivery (store : Store)
    (object_key object_etag ts1 ts2 cid1 cid2 : String)
    (rows : List Record) (resp1 resp2 : Except PyErr PutEventsResponse)
    (hkey : strStartsWith object_key "input/" = true)
    (hbase : baseFilename object_key ≠ "bad")
    (hrows : rows ≠ [])
    (hstore : ∀ p ∈ store,
      strStartsWith p.1 (processed_pre object_key) = false ∧
      strStartsWith p.1 (rejected_pre object_key) = false) :
    (lambda_handler (lambda_handler store object_key object_etag ts1 cid1 rows resp1).1
        object_key object_etag ts2 cid2 rows resp2).2.1 = .duplicateSkipped ∧
    (lambda_handler (lambda_handler store object_key object_etag ts1 cid1 rows resp1).1
        object_key object_etag ts2 cid2 rows resp2).1 =
      (lambda_handler store object_key object_etag ts1 cid1 rows resp1).1 ∧
    (lambda_handler store object_key object_etag ts1 cid1 rows resp1).1.countP
      (fun p => strStartsWith p.1 (processed_pre object_key) &&
        p.2.sourceEtag == object_etag) ≤ 1 ∧
    (lambda_handler store object_key object_etag ts1 cid1 rows resp1).1.countP
      (fun p => strStartsWith p.1 (rejected_pre object_key) &&
        p.2.sourceEtag == object_etag) ≤ 1 := by
  have hguard1 := is_already_processed_false store object_key object_etag hstore
  obtain ⟨V, I, hVI⟩ : ∃ V I, process_csv_file ts1 cid1 object_key rows 2 = (V, I) :=
    ⟨_, _, rfl⟩
  have hlen : V.length + I.length = rows.length := by
    have h := process_csv_file_length ts1 cid1 object_key rows 2
    rw [hVI] at h
    exact h
  have hVInonempty : ¬(V.isEmpty = true ∧ I.isEmpty = true) := by
    rintro ⟨h1, h2⟩
    rw [List.isEmpty_iff] at h1 h2
    apply hrows
    have : rows.length = 0 := by rw [← hlen, h1, h2]; rfl
    exact List.length_eq_zero.mp this
  have hrun1 : (lambda_handler store object_key object_etag ts1 cid1 rows resp1).1 =
      store ++
      (if V.isEmpty then []
       else [(processed_pre object_key ++ ts1 ++ ".csv", ⟨object_etag, V.length⟩)]) ++
      (if I.isEmpty then []
       else [(rejected_pre object_key ++ ts1 ++ ".csv", ⟨object_etag, I.length⟩)]) := by
    rw [lambda_handler_processed_store store object_key object_etag ts1 cid1 rows resp1
        hkey hguard1, hVI, upload_results_store]
  have hfs_p : store.filter (fun p => strStartsWith p.1 (processed_pre object_key)) = [] :=
    List.filter_eq_nil_iff.mpr (fun a ha => by simp [(hstore a ha).1])
  have hfs_r : store.filter (fun p => strStartsWith p.1 (rejected_pre object_key)) = [] :=
    List.filter_eq_nil_iff.mpr (fun a ha => by simp [(hstore a ha).2])
  have hguard2 : is_already_processed
      (lambda_handler store object_key object_etag ts1 cid1 rows resp1).1
      object_key object_etag = true := by
    rw [hrun1]
    unfold is_already_processed
    rw [if_neg (by simp [hbase])]
    simp only [List.any_cons, List.any_nil, Bool.or_false]
    by_cases hv : V.isEmpty
    · have hi : ¬ I.isEmpty = true := fun hi => hVInonempty ⟨hv, hi⟩
      rw [if_pos hv, if_neg hi]
      have h2 : listObjectsV2
          (store ++ [] ++ [(rejected_pre object_key ++ ts1 ++ ".csv",
            ⟨object_etag, I.length⟩)]) (rejected_pre object_key) =
          [(rejected_pre object_key ++ ts1 ++ ".csv", ⟨object_etag, I.length⟩)] := by
        unfold listObjectsV2
        rw [List.filter_append, List.filter_append, hfs_r]
        simp [strStartsWith_append_self, sortByKey, insertByKey]
      rw [h2]
      have h1 : listObjectsV2
          (store ++ [] ++ [(rejected_pre object_key ++ ts1 ++ ".csv",
            ⟨object_etag, I.length⟩)]) (processed_pre object_key) = [] := by
        apply listObjectsV2_nil
        intro p hp
        simp only [List.append_nil, List.mem_append, List.mem_singleton] at hp
        rcases hp with hp | hp
        · exact (hstore p hp).1
        · rw [hp]
          exact rejected_key_not_processed _ _ _
      rw [h1]
      simp
    · rw [if_neg hv]
      have h1 : listObjectsV2
          (store ++ [(processed_pre object_key ++ ts1 ++ ".csv", ⟨object_etag, V.length⟩)] ++
            (if I.isEmpty then []
             else [(rejected_pre object_key ++ ts1 ++ ".csv", ⟨object_etag, I.length⟩)]))
          (processed_pre object_key) =
          [(processed_pre object_key ++ ts1 ++ ".csv", ⟨object_etag, V.length⟩)] := by
        unfold listObjectsV2
        rw [List.filter_append, List.filter_append, hfs_p]
        by_cases hi : I.isEmpty
        · rw [if_pos hi]
          simp [strStartsWith_append_self, sortByKey, insertByKey]
        · rw [if_neg hi]
          simp [strStartsWith_append_self, rejected_key_not_processed, sortByKey, insertByKey]
      rw [h1]
      simp
  have hrun2 := lambda_handler_duplicate
    (lambda_handler store object_key object_etag ts1 cid1 rows resp1).1
    object_key object_etag ts2 cid2 rows resp2 hkey hguard2
  refine ⟨by rw [hrun2], by rw [hrun2], ?_, ?_⟩
  · rw [hrun1, List.countP_append, List.countP_append]
    have hc1 : store.countP (fun p => strStartsWith p.1 (processed_pre object_key) &&
        p.2.sourceEtag == object_etag) = 0 :=
      List.countP_eq_zero.mpr (fun a ha => by simp [(hstore a ha).1])
    have hc3 : (if I.isEmpty then ([] : Store)
        else [(rejected_pre object_key ++ ts1 ++ ".csv", ⟨object_etag, I.length⟩)]).countP
        (fun p => strStartsWith p.1 (processed_pre object_key) &&
          p.2.sourceEtag == object_etag) = 0 := by
      by_cases hi : I.isEmpty <;> simp [hi, rejected_key_not_processed]
    have hc2 : (if V.isEmpty then ([] : Store)
        else [(processed_pre object_key ++ ts1 ++ ".csv", ⟨object_etag, V.length⟩)]).countP
        (fun p => strStartsWith p.1 (processed_pre object_key) &&
          p.2.sourceEtag == object_etag) ≤ 1 := by
      by_cases hv : V.isEmpty
      · simp [hv]
      · calc _ ≤ (if V.isEmpty then ([] : Store)
              else [(processed_pre object_key ++ ts1 ++ ".csv",
                ⟨object_etag, V.length⟩)]).length := List.countP_le_length _
          _ ≤ 1 := by simp [hv]
    omega
  · rw [hrun1, List.countP_append, List.countP_append]
    have hc1 : store.countP (fun p => strStartsWith p.1 (rejected_pre object_key) &&
        p.2.sourceEtag == object_etag) = 0 :=
      List.countP_eq_zero.mpr (fun a ha => by simp [(hstore a ha).2])
    have hc2 : (if V.isEmpty then ([] : Store)
        else [(processed_pre object_key ++ ts1 ++ ".csv", ⟨object_etag, V.length⟩)]).countP
        (fun p => strStartsWith p.1 (rejected_pre object_key) &&
          p.2.sourceEtag == object_etag) = 0 := by
      by_cases hv : V.isEmpty <;> simp [hv, processed_key_not_rejected]
    have hc3 : (if I.isEmpty then ([] : Store)
        else [(rejected_pre object_key ++ ts1 ++ ".csv", ⟨object_etag, I.length⟩)]).countP
        (fun p => strStartsWith p.1 (rejected_pre object_key) &&
          p.2.sourceEtag == object_etag) ≤ 1 := by
      by_cases hi : I.isEmpty
      · simp [hi]
      · calc _ ≤ (if I.isEmpty then ([] : Store)
              else [(rejected_pre object_key ++ ts1 ++ ".csv",
                ⟨object_etag, I.length⟩)]).length := List.countP_le_length _
          _ ≤ 1 := by simp [hi]
    omega

/-- Witness for the amended C1: one invalid row delivered twice from an
empty store — the second delivery is skipped and at most one processed
artifact carries the fingerprint. -/
theorem claim_C1_idempotent_redelivery_witness :
    (lambda_handler
        (lambda_handler [] "input/data.csv" "e1" "t1" "c1" [[("price", "0")]] (.ok ⟨0⟩)).1
        "input/data.csv" "e1" "t2" "c2" [[("price", "0")]] (.ok ⟨0⟩)).2.1 =
      .duplicateSkipped ∧
    (lambda_handler [] "input/data.csv" "e1" "t1" "c1" [[("price", "0")]] (.ok ⟨0⟩)).1.countP
      (fun p => strStartsWith p.1 (processed_pre "input/data.csv") &&
        p.2.sourceEtag == "e1") ≤ 1 := by
  have h := claim_C1_idempotent_redelivery [] "input/data.csv" "e1" "t1" "t2" "c1" "c2"
    [[("price", "0")]] (.ok ⟨0⟩) (.ok ⟨0⟩) (by decide) (by decide) (by decide)
    (by intro p hp; simp at hp)
  exact ⟨h.1, h.2.2.1⟩

set_option maxRecDepth 8000 in
/-- C1 counterexample: the guard deliberately fails for uploads whose
base name is `bad` (the intentional-error hook at source lines 237-238 is
caught and turned into fail-open `False`), so re-delivering
`input/bad.csv` after a successful run is *not* detected: the second run
reprocesses the file and a second processed artifact with the same
source fingerprint is durably created. -/
theorem claim_C1_counterexample :
    (lambda_handler
        (lambda_handler [] "input/bad.csv" "e1" "t1" "c1"
          [[("order_id", "1"), ("date", "2024-03-26"), ("brand", "Apple"),
            ("model", "iPhone"), ("price", "999"), ("region", "Asia")]] (.ok ⟨0⟩)).1
        "input/bad.csv" "e1" "t2" "c2"
        [[("order_id", "1"), ("date", "2024-03-26"), ("brand", "Apple"),
          ("model", "iPhone"), ("price", "999"), ("region", "Asia")]] (.ok ⟨0⟩)).2.1 ≠
      .duplicateSkipped ∧
    (lambda_handler
        (lambda_handler [] "input/bad.csv" "e1" "t1" "c1"
          [[("order_id", "1"), ("date", "2024-03-26"), ("brand", "Apple"),
            ("model", "iPhone"), ("price", "999"), ("region", "Asia")]] (.ok ⟨0⟩)).1
        "input/bad.csv" "e1" "t2" "c2"
        [[("order_id", "1"), ("date", "2024-03-26"), ("brand", "Apple"),
          ("model", "iPhone"), ("price", "999"), ("region", "Asia")]] (.ok ⟨0⟩)).1.countP
      (fun p => strStartsWith p.1 (processed_pre "input/bad.csv") &&
        p.2.sourceEtag == "e1") = 2 := by
  refine ⟨by decide, by decide⟩

end DataProcessor
